import Mathlib

/-!
Verification of the fsevent event-translation and watcher layer.

The development shallowly embeds `src/src/fsevent.rs` (and the callback in
`src/src/lib.rs` where identical): the `StreamFlags` bitmask, the pure
translator `translate_flags`, the watcher calls `watch_inner` / `append_path` /
`run` / `configure`, and the OS callback `callback_impl`.  The event taxonomy
(`Event`, `EventKind`, …) lives in a module of this crate that is not part of
the sources, so it is modelled from the specification's data model.

Machine integers are modelled as `Nat` with explicit 32-bit masking where the
code relies on `u32` semantics.  OS effects (path existence, CFString
conversion, the run loop) are modelled as explicit oracle inputs, and
`panic!` / non-termination are explicit outcome constructors.
-/

namespace FseventDump

/-! ## StreamFlags: the 32-bit FSEvents flag word (src/src/fsevent.rs lines 29-57) -/

/-- Bit value of `kFSEventStreamEventFlagNone` (fsevent-sys). -/
def kNone : Nat := 0x00000000

/-- Bit value of `kFSEventStreamEventFlagMustScanSubDirs`. -/
def kMustScanSubDirs : Nat := 0x00000001

/-- Bit value of `kFSEventStreamEventFlagUserDropped`. -/
def kUserDropped : Nat := 0x00000002

/-- Bit value of `kFSEventStreamEventFlagKernelDropped`. -/
def kKernelDropped : Nat := 0x00000004

/-- Bit value of `kFSEventStreamEventFlagEventIdsWrapped`. -/
def kEventIdsWrapped : Nat := 0x00000008

/-- Bit value of `kFSEventStreamEventFlagHistoryDone`. -/
def kHistoryDone : Nat := 0x00000010

/-- Bit value of `kFSEventStreamEventFlagRootChanged`. -/
def kRootChanged : Nat := 0x00000020

/-- Bit value of `kFSEventStreamEventFlagMount`. -/
def kMount : Nat := 0x00000040

/-- Bit value of `kFSEventStreamEventFlagUnmount`. -/
def kUnmount : Nat := 0x00000080

/-- Bit value of `kFSEventStreamEventFlagItemCreated`. -/
def kItemCreated : Nat := 0x00000100

/-- Bit value of `kFSEventStreamEventFlagItemRemoved`. -/
def kItemRemoved : Nat := 0x00000200

/-- Bit value of `kFSEventStreamEventFlagItemInodeMetaMod`. -/
def kItemInodeMetaMod : Nat := 0x00000400

/-- Bit value of `kFSEventStreamEventFlagItemRenamed`. -/
def kItemRenamed : Nat := 0x00000800

/-- Bit value of `kFSEventStreamEventFlagItemModified`. -/
def kItemModified : Nat := 0x00001000

/-- Bit value of `kFSEventStreamEventFlagItemFinderInfoMod`. -/
def kItemFinderInfoMod : Nat := 0x00002000

/-- Bit value of `kFSEventStreamEventFlagItemChangeOwner`. -/
def kItemChangeOwner : Nat := 0x00004000

/-- Bit value of `kFSEventStreamEventFlagItemXattrMod`. -/
def kItemXattrMod : Nat := 0x00008000

/-- Bit value of `kFSEventStreamEventFlagItemIsFile`. -/
def kItemIsFile : Nat := 0x00010000

/-- Bit value of `kFSEventStreamEventFlagItemIsDir`. -/
def kItemIsDir : Nat := 0x00020000

/-- Bit value of `kFSEventStreamEventFlagItemIsSymlink`. -/
def kItemIsSymlink : Nat := 0x00040000

/-- Bit value of `kFSEventStreamEventFlagOwnEvent`. -/
def kOwnEvent : Nat := 0x00080000

/-- Bit value of `kFSEventStreamEventFlagItemIsHardlink`. -/
def kItemIsHardlink : Nat := 0x00100000

/-- Bit value of `kFSEventStreamEventFlagItemIsLastHardlink`. -/
def kItemIsLastHardlink : Nat := 0x00200000

/-- Bit value of `kFSEventStreamEventFlagItemCloned`. -/
def kItemCloned : Nat := 0x00400000

/-- The `StreamFlags` bitflags wrapper over a `u32` (fsevent.rs lines 29-57).
The wrapped word is a `Nat`; `u32` arithmetic is made explicit where used. -/
structure StreamFlags where
  bits : Nat
  deriving DecidableEq, Repr

/-- `StreamFlags::NONE`. -/
def StreamFlags.NONE : StreamFlags := ⟨kNone⟩

/-- `StreamFlags::MUST_SCAN_SUBDIRS`. -/
def StreamFlags.MUST_SCAN_SUBDIRS : StreamFlags := ⟨kMustScanSubDirs⟩

/-- `StreamFlags::USER_DROPPED`. -/
def StreamFlags.USER_DROPPED : StreamFlags := ⟨kUserDropped⟩

/-- `StreamFlags::KERNEL_DROPPED`. -/
def StreamFlags.KERNEL_DROPPED : StreamFlags := ⟨kKernelDropped⟩

/-- `StreamFlags::IDS_WRAPPED`. -/
def StreamFlags.IDS_WRAPPED : StreamFlags := ⟨kEventIdsWrapped⟩

/-- `StreamFlags::HISTORY_DONE`. -/
def StreamFlags.HISTORY_DONE : StreamFlags := ⟨kHistoryDone⟩

/-- `StreamFlags::ROOT_CHANGED`. -/
def StreamFlags.ROOT_CHANGED : StreamFlags := ⟨kRootChanged⟩

/-- `StreamFlags::MOUNT`. -/
def StreamFlags.MOUNT : StreamFlags := ⟨kMount⟩

/-- `StreamFlags::UNMOUNT`. -/
def StreamFlags.UNMOUNT : StreamFlags := ⟨kUnmount⟩

/-- `StreamFlags::ITEM_CREATED`. -/
def StreamFlags.ITEM_CREATED : StreamFlags := ⟨kItemCreated⟩

/-- `StreamFlags::ITEM_REMOVED`. -/
def StreamFlags.ITEM_REMOVED : StreamFlags := ⟨kItemRemoved⟩

/-- `StreamFlags::INODE_META_MOD`. -/
def StreamFlags.INODE_META_MOD : StreamFlags := ⟨kItemInodeMetaMod⟩

/-- `StreamFlags::ITEM_RENAMED`. -/
def StreamFlags.ITEM_RENAMED : StreamFlags := ⟨kItemRenamed⟩

/-- `StreamFlags::ITEM_MODIFIED`. -/
def StreamFlags.ITEM_MODIFIED : StreamFlags := ⟨kItemModified⟩

/-- `StreamFlags::FINDER_INFO_MOD`. -/
def StreamFlags.FINDER_INFO_MOD : StreamFlags := ⟨kItemFinderInfoMod⟩

/-- `StreamFlags::ITEM_CHANGE_OWNER`. -/
def StreamFlags.ITEM_CHANGE_OWNER : StreamFlags := ⟨kItemChangeOwner⟩

/-- `StreamFlags::ITEM_XATTR_MOD`. -/
def StreamFlags.ITEM_XATTR_MOD : StreamFlags := ⟨kItemXattrMod⟩

/-- `StreamFlags::IS_FILE`. -/
def StreamFlags.IS_FILE : StreamFlags := ⟨kItemIsFile⟩

/-- `StreamFlags::IS_DIR`. -/
def StreamFlags.IS_DIR : StreamFlags := ⟨kItemIsDir⟩

/-- `StreamFlags::IS_SYMLINK`. -/
def StreamFlags.IS_SYMLINK : StreamFlags := ⟨kItemIsSymlink⟩

/-- `StreamFlags::OWN_EVENT`. -/
def StreamFlags.OWN_EVENT : StreamFlags := ⟨kOwnEvent⟩

/-- `StreamFlags::IS_HARDLINK`. -/
def StreamFlags.IS_HARDLINK : StreamFlags := ⟨kItemIsHardlink⟩

/-- `StreamFlags::IS_LAST_HARDLINK`. -/
def StreamFlags.IS_LAST_HARDLINK : StreamFlags := ⟨kItemIsLastHardlink⟩

/-- `StreamFlags::ITEM_CLONED`. -/
def StreamFlags.ITEM_CLONED : StreamFlags := ⟨kItemCloned⟩

/-- `StreamFlags::all()` as generated by the `bitflags!` macro: the union of
every declared constant. -/
def StreamFlags.all : StreamFlags :=
  ⟨kNone ||| kMustScanSubDirs ||| kUserDropped ||| kKernelDropped |||
    kEventIdsWrapped ||| kHistoryDone ||| kRootChanged ||| kMount ||| kUnmount |||
    kItemCreated ||| kItemRemoved ||| kItemInodeMetaMod ||| kItemRenamed |||
    kItemModified ||| kItemFinderInfoMod ||| kItemChangeOwner ||| kItemXattrMod |||
    kItemIsFile ||| kItemIsDir ||| kItemIsSymlink ||| kOwnEvent |||
    kItemIsHardlink ||| kItemIsLastHardlink ||| kItemCloned⟩

/-- `StreamFlags::from_bits(bits)` as generated by `bitflags!`: succeeds exactly
when `bits & !Self::all().bits() == 0`, where `!` is `u32` complement
(modelled as xor with the 32-bit all-ones mask). -/
def StreamFlags.from_bits (bits : Nat) : Option StreamFlags :=
  if bits &&& (0xFFFFFFFF ^^^ StreamFlags.all.bits) = 0 then some ⟨bits⟩ else none

/-- `StreamFlags::contains(other)` as generated by `bitflags!`:
`self.bits & other.bits == other.bits`. -/
def StreamFlags.contains (s f : StreamFlags) : Bool :=
  s.bits &&& f.bits == f.bits

/-! ## Event taxonomy

The event types are defined in this crate's `event` module, which is not among
the provided sources; they are modelled from the specification (§3 DATA MODEL).
-/

/-- Modelled from the spec: sub-kinds of `Create`
(`{File, Folder, Other, Any}`; symlink/hardlink/clone are conveyed via info). -/
inductive CreateKind where
  | Any
  | File
  | Folder
  | Other
  deriving DecidableEq, Repr

/-- Modelled from the spec: sub-kinds of `Remove`, same shape as `Create`. -/
inductive RemoveKind where
  | Any
  | File
  | Folder
  | Other
  deriving DecidableEq, Repr

/-- Modelled from the spec: `RenameMode ∈ {From, To, Both, Other, Any}`. -/
inductive RenameMode where
  | Any
  | To
  | From
  | Both
  | Other
  deriving DecidableEq, Repr

/-- Modelled from the spec: `MetadataKind ∈ {Any, Ownership, Extended, Other}`. -/
inductive MetadataKind where
  | Any
  | Ownership
  | Extended
  | Other
  deriving DecidableEq, Repr

/-- Modelled from the spec: `DataChange ∈ {Content, Size, Other, Any}`. -/
inductive DataChange where
  | Any
  | Content
  | Size
  | Other
  deriving DecidableEq, Repr

/-- Modelled from the spec:
`ModifyKind ∈ {Name(RenameMode), Data(DataChange), Metadata(MetadataKind), Other, Any}`. -/
inductive ModifyKind where
  | Any
  | Name (mode : RenameMode)
  | Data (change : DataChange)
  | Metadata (kind : MetadataKind)
  | Other
  deriving DecidableEq, Repr

/-- Modelled from the spec: the `EventKind` tagged variants (`Access` is
reserved and never emitted by this core). -/
inductive EventKind where
  | Any
  | Create (kind : CreateKind)
  | Remove (kind : RemoveKind)
  | Modify (kind : ModifyKind)
  | Access
  | Other
  deriving DecidableEq, Repr

/-- Modelled from the spec: auxiliary flag `{Rescan, Ongoing}` attached to
events. -/
inductive Flag where
  | Rescan
  | Ongoing
  deriving DecidableEq, Repr

/-- Modelled from the spec: the optional event attributes
`{flag?, info?, process_id?}` (the tracker attribute is unused by this core). -/
structure EventAttributes where
  flag : Option Flag := none
  info : Option String := none
  process_id : Option Nat := none
  deriving DecidableEq, Repr

/-- Modelled from the spec: an `Event` is a kind, a list of paths, and
attributes; constructed fresh per OS notification. -/
structure Event where
  kind : EventKind
  paths : List String := []
  attrs : EventAttributes := {}
  deriving DecidableEq, Repr

/-- Modelled from the spec: `Event::new(kind)` builds an event with no paths
and empty attributes. -/
def Event.new (kind : EventKind) : Event :=
  { kind := kind }

/-- Modelled from the spec: builder setting the auxiliary flag attribute. -/
def Event.set_flag (e : Event) (f : Flag) : Event :=
  { e with attrs := { e.attrs with flag := some f } }

/-- Modelled from the spec: builder setting the info attribute. -/
def Event.set_info (e : Event) (s : String) : Event :=
  { e with attrs := { e.attrs with info := some s } }

/-- Modelled from the spec: builder setting the process-id attribute. -/
def Event.set_process_id (e : Event) (pid : Nat) : Event :=
  { e with attrs := { e.attrs with process_id := some pid } }

/-- Discriminator: is this kind a `Create`. -/
def EventKind.isCreate : EventKind → Bool
  | .Create _ => true
  | _ => false

/-- Discriminator: is this kind the `Other` sentinel. -/
def EventKind.isOtherKind : EventKind → Bool
  | .Other => true
  | _ => false

/-! ## The translator (`translate_flags`, fsevent.rs lines 76-222)

The sequence of conditional `evs.push(...)` statements is embedded as the
concatenation of conditional singleton lists, in the same order; the event
expression pushed by each rule is given its own named definition.
-/

/-- The event pushed by the `MUST_SCAN_SUBDIRS` rule (fsevent.rs lines 97-106):
kind `Other`, flag `Rescan`, and an info string depending on
`USER_DROPPED` / `KERNEL_DROPPED`. -/
def rescan_event (flags : StreamFlags) : Event :=
  let e := (Event.new EventKind.Other).set_flag Flag.Rescan
  if flags.contains StreamFlags.USER_DROPPED then
    e.set_info "rescan: user dropped"
  else if flags.contains StreamFlags.KERNEL_DROPPED then
    e.set_info "rescan: kernel dropped"
  else
    e

/-- The event pushed by the `ITEM_CREATED` rule (fsevent.rs lines 135-152). -/
def created_event (flags : StreamFlags) : Event :=
  if flags.contains StreamFlags.IS_DIR then
    Event.new (EventKind.Create CreateKind.Folder)
  else if flags.contains StreamFlags.IS_FILE then
    Event.new (EventKind.Create CreateKind.File)
  else
    let e := Event.new (EventKind.Create CreateKind.Other)
    if flags.contains StreamFlags.IS_SYMLINK then
      e.set_info "is: symlink"
    else if flags.contains StreamFlags.IS_HARDLINK then
      e.set_info "is: hardlink"
    else if flags.contains StreamFlags.ITEM_CLONED then
      e.set_info "is: clone"
    else
      Event.new (EventKind.Create CreateKind.Any)

/-- The event pushed by the `ITEM_REMOVED` rule (fsevent.rs lines 154-171),
symmetric to `created_event`. -/
def removed_event (flags : StreamFlags) : Event :=
  if flags.contains StreamFlags.IS_DIR then
    Event.new (EventKind.Remove RemoveKind.Folder)
  else if flags.contains StreamFlags.IS_FILE then
    Event.new (EventKind.Remove RemoveKind.File)
  else
    let e := Event.new (EventKind.Remove RemoveKind.Other)
    if flags.contains StreamFlags.IS_SYMLINK then
      e.set_info "is: symlink"
    else if flags.contains StreamFlags.IS_HARDLINK then
      e.set_info "is: hardlink"
    else if flags.contains StreamFlags.ITEM_CLONED then
      e.set_info "is: clone"
    else
      Event.new (EventKind.Remove RemoveKind.Any)

/-- The events pushed by the precise-mode rules (fsevent.rs lines 118-213), in
source order: root-changed, mount, unmount, item-created, item-removed,
item-renamed, inode metadata, finder info, ownership, extended attributes,
data. -/
def precise_tail (flags : StreamFlags) : List Event :=
  (if flags.contains StreamFlags.ROOT_CHANGED then
    [(Event.new (EventKind.Modify (ModifyKind.Name RenameMode.From))).set_info
      "root changed"]
  else []) ++
  (if flags.contains StreamFlags.MOUNT then
    [(Event.new (EventKind.Create CreateKind.Other)).set_info "mount"]
  else []) ++
  (if flags.contains StreamFlags.UNMOUNT then
    [(Event.new (EventKind.Remove RemoveKind.Other)).set_info "mount"]
  else []) ++
  (if flags.contains StreamFlags.ITEM_CREATED then [created_event flags]
  else []) ++
  (if flags.contains StreamFlags.ITEM_REMOVED then [removed_event flags]
  else []) ++
  (if flags.contains StreamFlags.ITEM_RENAMED then
    [Event.new (EventKind.Modify (ModifyKind.Name RenameMode.From))]
  else []) ++
  (if flags.contains StreamFlags.INODE_META_MOD then
    [Event.new (EventKind.Modify (ModifyKind.Metadata MetadataKind.Any))]
  else []) ++
  (if flags.contains StreamFlags.FINDER_INFO_MOD then
    [(Event.new (EventKind.Modify (ModifyKind.Metadata MetadataKind.Other))).set_info
      "meta: finder info"]
  else []) ++
  (if flags.contains StreamFlags.ITEM_CHANGE_OWNER then
    [Event.new (EventKind.Modify (ModifyKind.Metadata MetadataKind.Ownership))]
  else []) ++
  (if flags.contains StreamFlags.ITEM_XATTR_MOD then
    [Event.new (EventKind.Modify (ModifyKind.Metadata MetadataKind.Extended))]
  else []) ++
  (if flags.contains StreamFlags.ITEM_MODIFIED then
    [Event.new (EventKind.Modify (ModifyKind.Data DataChange.Content))]
  else [])

/-- `translate_flags(flags, precise)` (fsevent.rs lines 76-222).  The ambient
`std::process::id()` read in the `OWN_EVENT` rule is passed in as `pid`. -/
def translate_flags (pid : Nat) (flags : StreamFlags) (precise : Bool) :
    List Event :=
  if flags.contains StreamFlags.HISTORY_DONE then
    []
  else
    let evs : List Event :=
      if flags.contains StreamFlags.MUST_SCAN_SUBDIRS then [rescan_event flags]
      else []
    if !precise then
      evs ++ [Event.new EventKind.Any]
    else
      let evs := evs ++ precise_tail flags
      if flags.contains StreamFlags.OWN_EVENT then
        evs.map (fun ev => ev.set_process_id pid)
      else
        evs

example : (0xFFFFFFFF ^^^ StreamFlags.all.bits : Nat) = 0xFF800000 := by decide

example : StreamFlags.all.bits = 0x7FFFFF := by decide

example :
    translate_flags 0 ⟨kHistoryDone ||| kItemCreated ||| kItemIsFile⟩ true = [] := by
  decide

example :
    translate_flags 0 ⟨kMustScanSubDirs ||| kUserDropped⟩ true =
      [{ kind := EventKind.Other,
         attrs := { flag := some Flag.Rescan,
                    info := some "rescan: user dropped" } }] := by
  decide

example :
    translate_flags 4242 ⟨kItemCreated ||| kItemIsFile ||| kOwnEvent⟩ true =
      [{ kind := EventKind.Create CreateKind.File,
         attrs := { process_id := some 4242 } }] := by
  decide

example :
    translate_flags 0 ⟨kItemCreated ||| kItemCloned⟩ true =
      [{ kind := EventKind.Create CreateKind.Other,
         attrs := { info := some "is: clone" } }] := by
  decide

example :
    translate_flags 0 ⟨kItemRenamed ||| kItemInodeMetaMod ||| kItemIsFile⟩ true =
      [Event.new (EventKind.Modify (ModifyKind.Name RenameMode.From)),
       Event.new (EventKind.Modify (ModifyKind.Metadata MetadataKind.Any))] := by
  decide

example :
    translate_flags 0 ⟨kMustScanSubDirs ||| kItemModified⟩ false =
      [{ kind := EventKind.Other, attrs := { flag := some Flag.Rescan } },
       Event.new EventKind.Any] := by
  decide

/-! ## Error type and watcher state

The `Error` type and the `RecursiveMode` enum live in crate modules that are
not among the provided sources; they are modelled from the specification
(§7 ERROR HANDLING DESIGN, §6).
-/

/-- Modelled from the spec: the error kinds `PathNotFound`, `WatchNotFound`,
`Generic(message)`, `Io(underlying)`, `MaxFilesWatch`, `InvalidConfig`. -/
inductive ErrorKind where
  | PathNotFound
  | WatchNotFound
  | Generic (msg : String)
  | Io (msg : String)
  | MaxFilesWatch
  | InvalidConfig
  deriving DecidableEq, Repr

/-- Modelled from the spec: an error carries a kind and an optional list of
paths it relates to. -/
structure Error where
  kind : ErrorKind
  paths : List String := []
  deriving DecidableEq, Repr

/-- Modelled from the spec: `Error::path_not_found()` constructor. -/
def Error.path_not_found : Error :=
  { kind := ErrorKind.PathNotFound }

/-- Modelled from the spec: `Error::add_path` appends a related path. -/
def Error.add_path (e : Error) (p : String) : Error :=
  { e with paths := e.paths ++ [p] }

/-- Modelled from the spec: per-path recursive mode. -/
inductive RecursiveMode where
  | Recursive
  | NonRecursive
  deriving DecidableEq, Repr

/-- Modelled from the spec: `RecursiveMode::is_recursive`. -/
def RecursiveMode.is_recursive : RecursiveMode → Bool
  | .Recursive => true
  | .NonRecursive => false

/-- `kFSEventStreamEventIdSinceNow` (fsevent-sys): the `u64` sentinel meaning
no replay. -/
def kFSEventStreamEventIdSinceNow : Nat := 0xFFFFFFFFFFFFFFFF

/-- `kFSEventStreamCreateFlagFileEvents` (fsevent-sys). -/
def kFSEventStreamCreateFlagFileEvents : Nat := 0x00000010

/-- `kFSEventStreamCreateFlagNoDefer` (fsevent-sys). -/
def kFSEventStreamCreateFlagNoDefer : Nat := 0x00000002

/-- Oracle for the OS effects reached from `watch`: whether a path exists
(`Path::exists`), whether `str_path_to_cfstring_ref` returns non-null,
the result of `Path::canonicalize`, and whether `CFRunLoopRun` ever returns
control to its caller. -/
structure OsEnv where
  path_exists : String → Bool
  cfstring_ok : String → Bool
  canonicalize : String → String
  runloop_returns : Bool

/-- The `FsEventWatcher` state (fsevent.rs lines 60-67): the CF array of
watched paths is modelled by the list of strings appended to it, and the
`recursive_info` hash map by a partial function updated last-write-wins.
The `latency: f64` field (always `0.0`) is not modelled; `runloop` is `None`
until some code stores a run-loop handle into it (none does). -/
structure FsEventWatcher where
  paths : List String
  since_when : Nat
  flags : Nat
  runloop : Option Unit
  recursive_info : String → Option Bool

/-- `FsEventWatcher::from_event_handler` (fsevent.rs lines 249-260): the idle
initial state with an empty path array. -/
def FsEventWatcher.from_event_handler : FsEventWatcher :=
  { paths := []
    since_when := kFSEventStreamEventIdSinceNow
    flags := kFSEventStreamCreateFlagFileEvents ||| kFSEventStreamCreateFlagNoDefer
    runloop := none
    recursive_info := fun _ => none }

/-- `FsEventWatcher::append_path` (fsevent.rs lines 270-292): error if the path
does not exist or the CFString conversion fails, otherwise append the path to
the CF array and record the canonicalized path's recursive bit. -/
def FsEventWatcher.append_path (st : FsEventWatcher) (env : OsEnv)
    (path : String) (recursive_mode : RecursiveMode) :
    Except Error Unit × FsEventWatcher :=
  if !(env.path_exists path) then
    (Except.error (Error.path_not_found.add_path path), st)
  else if !(env.cfstring_ok path) then
    (Except.error (Error.path_not_found.add_path path), st)
  else
    (Except.ok (),
     { st with
        paths := st.paths ++ [path]
        recursive_info := fun k =>
          if k = env.canonicalize path then some recursive_mode.is_recursive
          else st.recursive_info k })

/-- Outcome of a watcher call: a normal return carrying the `Result` and the
state, a panic, or failure to terminate (the call never returns). -/
inductive WatchOutcome where
  | returns (r : Except Error Unit) (st : FsEventWatcher)
  | panics (msg : String)
  | diverges

/-- `FsEventWatcher::run` (fsevent.rs lines 294-343): error when the path array
is empty; otherwise the stream is created and scheduled on the CURRENT
thread's run loop and `CFRunLoopRun()` is entered on the calling thread.  If
the run loop never returns the call diverges; if it does return, the stream is
stopped, invalidated and released, and the function hits the unconditional
`panic` on its last line.  No `Ok` exit exists and `self.runloop` is never
assigned. -/
def FsEventWatcher.run (st : FsEventWatcher) (env : OsEnv) : WatchOutcome :=
  if st.paths.length = 0 then
    WatchOutcome.returns (Except.error Error.path_not_found) st
  else if env.runloop_returns then
    WatchOutcome.panics "no"
  else
    WatchOutcome.diverges

/-- `FsEventWatcher::watch_inner` (fsevent.rs lines 262-267): append the path,
then call `run`, discarding only a `Result` error from it (`let _ = self.run()`);
a panic or non-termination of `run` propagates to the caller. -/
def FsEventWatcher.watch_inner (st : FsEventWatcher) (env : OsEnv)
    (path : String) (recursive_mode : RecursiveMode) : WatchOutcome :=
  match st.append_path env path recursive_mode with
  | (result, st1) =>
    match st1.run env with
    | WatchOutcome.returns _ st2 => WatchOutcome.returns result st2
    | WatchOutcome.panics m => WatchOutcome.panics m
    | WatchOutcome.diverges => WatchOutcome.diverges

/-! ## The OS callback (`callback_impl`, fsevent.rs lines 371-397)

Each raw notification entry carries the result of `CStr::to_str` on
`paths[i]` (`none` models byte sequences that are not valid UTF-8) and the raw
`u32` flag word `flags[i]`.  The dump callback prints each surviving
`(path, flags)` pair; the model accumulates the printed pairs.  `panic`
(from `expect` and from the flag-decode failure) aborts the loop, keeping the
pairs already printed.
-/

/-- One `(paths[i], flags[i])` entry handed to the callback. -/
structure CallbackEntry where
  path : Option String
  flags : Nat
  deriving DecidableEq, Repr

/-- Result of a callback invocation: the printed raw events, or a panic after
printing a prefix of them. -/
inductive CallbackOutcome where
  | ok (printed : List (String × StreamFlags))
  | panics (printed : List (String × StreamFlags)) (msg : String)
  deriving DecidableEq, Repr

/-- Substring test on character lists: some suffix of the haystack starts with
the pattern.  This is `str::contains` for the concrete pattern used by the
callback. -/
def contains_chars (pat : List Char) : List Char → Bool
  | [] => pat.isEmpty
  | c :: t => pat.isPrefixOf (c :: t) || contains_chars pat t

/-- `str::contains(pat)` on strings. -/
def str_contains (s pat : String) : Bool :=
  contains_chars pat.toList s.toList

/-- The loop body of `callback_impl` over the remaining entries, carrying the
raw events already printed.  Per entry: `expect` panics on invalid UTF-8;
a path containing `".hg"` is skipped via `continue` before the flag word is
looked at; an undecodable flag word panics; otherwise the raw event is
printed. -/
def callback_go : List CallbackEntry → List (String × StreamFlags) →
    CallbackOutcome
  | [], acc => CallbackOutcome.ok acc
  | { path := none, flags := _ } :: _, acc =>
    CallbackOutcome.panics acc "Invalid UTF8 string."
  | { path := some p, flags := fl } :: rest, acc =>
    if str_contains p ".hg" then
      callback_go rest acc
    else
      match StreamFlags.from_bits fl with
      | none =>
        CallbackOutcome.panics acc
          ("Unable to decode StreamFlags: " ++ toString fl)
      | some f => callback_go rest (acc ++ [(p, f)])

/-- `callback_impl` (fsevent.rs lines 371-397): process the entries in index
order starting from nothing printed. -/
def callback_impl (entries : List CallbackEntry) : CallbackOutcome :=
  callback_go entries []

example :
    callback_impl [⟨some "/a/b", kItemCreated ||| kItemIsFile⟩] =
      CallbackOutcome.ok
        [("/a/b", ⟨kItemCreated ||| kItemIsFile⟩)] := by decide

example :
    callback_impl [⟨some "/a/.hgx/c", 0x800000⟩, ⟨some "/d", kMount⟩] =
      CallbackOutcome.ok [("/d", ⟨kMount⟩)] := by decide

example :
    callback_impl [⟨none, 0⟩, ⟨some "/d", kMount⟩] =
      CallbackOutcome.panics [] "Invalid UTF8 string." := by decide

example :
    callback_impl [⟨some "/d", kMount⟩, ⟨some "/e", 0x800000⟩] =
      CallbackOutcome.panics [("/d", ⟨kMount⟩)]
        "Unable to decode StreamFlags: 8388608" := by decide

/-! ## `configure` (fsevent.rs lines 345-348 and 409-413) -/

/-- Modelled from the spec: the configuration options §6 lists as recognized
(`latency_seconds`, `since_event_id`, `precise_events`, per-path
`recursive_mode`).  The latency value is modelled as a `Nat` number of
microseconds since only the option's identity matters to `configure`. -/
inductive Config where
  | latency_seconds (micros : Nat)
  | since_event_id (id : Option Nat)
  | precise_events (enabled : Bool)
  | recursive_mode_for_path (path : String) (recursive : Bool)
  deriving DecidableEq, Repr

/-- `FsEventWatcher::configure_raw_mode` (fsevent.rs lines 345-348): the value
it sends on the channel, unconditionally `Ok(false)` for every config. -/
def configure_raw_mode (_config : Config) : Except Error Bool :=
  Except.ok false

/-- `FsEventWatcher::configure` (fsevent.rs lines 409-413): create a channel,
have `configure_raw_mode` send into it, and return the received value.  The
channel round-trip delivers exactly the sent value (the sender is alive for
the send and the message is buffered for the receive), so the call reduces to
`configure_raw_mode`. -/
def configure (config : Config) : Except Error Bool :=
  configure_raw_mode config

/-! ## Helper lemmas on the event builders -/

/-- The builders only touch attributes, never the kind. -/
@[simp] theorem Event.kind_new (k : EventKind) : (Event.new k).kind = k := rfl

/-- Setting info does not change the kind. -/
@[simp] theorem Event.kind_set_info (e : Event) (s : String) :
    (e.set_info s).kind = e.kind := rfl

/-- Setting the flag does not change the kind. -/
@[simp] theorem Event.kind_set_flag (e : Event) (f : Flag) :
    (e.set_flag f).kind = e.kind := rfl

/-- Stamping a process id does not change the kind. -/
@[simp] theorem Event.kind_set_process_id (e : Event) (n : Nat) :
    (e.set_process_id n).kind = e.kind := rfl

/-- Setting info does not change the flag attribute. -/
@[simp] theorem Event.flag_set_info (e : Event) (s : String) :
    (e.set_info s).attrs.flag = e.attrs.flag := rfl

/-- Stamping a process id does not change the flag attribute. -/
@[simp] theorem Event.flag_set_process_id (e : Event) (n : Nat) :
    (e.set_process_id n).attrs.flag = e.attrs.flag := rfl

/-- Stamping a process id does not change the info attribute. -/
@[simp] theorem Event.info_set_process_id (e : Event) (n : Nat) :
    (e.set_process_id n).attrs.info = e.attrs.info := rfl

/-- Stamping sets the process-id attribute. -/
@[simp] theorem Event.pid_set_process_id (e : Event) (n : Nat) :
    (e.set_process_id n).attrs.process_id = some n := rfl

/-! ## Helper lemmas on the rule events -/

/-- The rescan event always has kind `Other`. -/
theorem rescan_event_kind (flags : StreamFlags) :
    (rescan_event flags).kind = EventKind.Other := by
  simp only [rescan_event]
  split
  · rfl
  · split <;> rfl

/-- The rescan event always carries the `Rescan` flag. -/
theorem rescan_event_flag (flags : StreamFlags) :
    (rescan_event flags).attrs.flag = some Flag.Rescan := by
  simp only [rescan_event]
  split
  · rfl
  · split <;> rfl

/-- The info attribute of the rescan event, by the drop hints. -/
theorem rescan_event_info (flags : StreamFlags) :
    (rescan_event flags).attrs.info =
      (if flags.contains StreamFlags.USER_DROPPED then some "rescan: user dropped"
       else if flags.contains StreamFlags.KERNEL_DROPPED then
        some "rescan: kernel dropped"
       else none) := by
  simp only [rescan_event]
  cases h1 : flags.contains StreamFlags.USER_DROPPED <;>
    cases h2 : flags.contains StreamFlags.KERNEL_DROPPED <;>
      simp [h1, h2] <;> rfl

/-- The item-created rule always produces a `Create` kind. -/
theorem created_event_isCreate (flags : StreamFlags) :
    (created_event flags).kind.isCreate = true := by
  simp only [created_event]
  split
  · rfl
  split
  · rfl
  split
  · rfl
  split
  · rfl
  split <;> rfl

/-- The item-created rule never produces the `Other` kind sentinel. -/
theorem created_event_not_otherKind (flags : StreamFlags) :
    (created_event flags).kind.isOtherKind = false := by
  simp only [created_event]
  split
  · rfl
  split
  · rfl
  split
  · rfl
  split
  · rfl
  split <;> rfl

/-- The item-removed rule never produces a `Create` kind. -/
theorem removed_event_not_create (flags : StreamFlags) :
    (removed_event flags).kind.isCreate = false := by
  simp only [removed_event]
  split
  · rfl
  split
  · rfl
  split
  · rfl
  split
  · rfl
  split <;> rfl

/-- The item-removed rule never produces the `Other` kind sentinel. -/
theorem removed_event_not_otherKind (flags : StreamFlags) :
    (removed_event flags).kind.isOtherKind = false := by
  simp only [removed_event]
  split
  · rfl
  split
  · rfl
  split
  · rfl
  split
  · rfl
  split <;> rfl

/-! ## Helper lemmas on list filtering -/

/-- Filtering a conditional singleton. -/
theorem filter_ite_singleton (p : Event → Bool) (c : Prop) [Decidable c]
    (e : Event) :
    List.filter p (if c then [e] else []) =
      if c then List.filter p [e] else [] := by
  split <;> rfl

/-- Filtering by a predicate on the kind commutes with process-id stamping. -/
theorem filter_kind_map_set_process_id (p : EventKind → Bool) (pid : Nat)
    (l : List Event) :
    (l.map (fun e => e.set_process_id pid)).filter (fun e => p e.kind) =
      (l.filter (fun e => p e.kind)).map (fun e => e.set_process_id pid) := by
  induction l with
  | nil => rfl
  | cons a l ih =>
    simp only [List.map_cons, List.filter_cons, Event.kind_set_process_id]
    by_cases h : p a.kind = true <;> simp [h, ih]

/-- The `Create`-kind events of the precise tail: the mount event (when
`MOUNT`) followed by the item-created event (when `ITEM_CREATED`). -/
theorem precise_tail_filter_create (flags : StreamFlags) :
    (precise_tail flags).filter (fun e => e.kind.isCreate) =
      (if flags.contains StreamFlags.MOUNT then
        [(Event.new (EventKind.Create CreateKind.Other)).set_info "mount"]
       else []) ++
        (if flags.contains StreamFlags.ITEM_CREATED then [created_event flags]
         else []) := by
  have hc : List.filter (fun e => e.kind.isCreate) [created_event flags] =
      [created_event flags] := by
    have h := created_event_isCreate flags
    simp [List.filter, h]
  have hr : List.filter (fun e => e.kind.isCreate) [removed_event flags] =
      ([] : List Event) := by
    have h := removed_event_not_create flags
    simp [List.filter, h]
  simp only [precise_tail, List.filter_append, filter_ite_singleton, hc, hr]
  simp [List.filter, EventKind.isCreate]

/-- No event of the precise tail has the `Other` kind sentinel. -/
theorem precise_tail_filter_other (flags : StreamFlags) :
    (precise_tail flags).filter (fun e => e.kind.isOtherKind) = [] := by
  have hc : List.filter (fun e => e.kind.isOtherKind) [created_event flags] =
      ([] : List Event) := by
    have h := created_event_not_otherKind flags
    simp [List.filter, h]
  have hr : List.filter (fun e => e.kind.isOtherKind) [removed_event flags] =
      ([] : List Event) := by
    have h := removed_event_not_otherKind flags
    simp [List.filter, h]
  simp only [precise_tail, List.filter_append, filter_ite_singleton, hc, hr]
  simp [List.filter, EventKind.isOtherKind]

/-! ## Normal forms of the translator -/

/-- Without `HISTORY_DONE`, the imprecise result is the conditional rescan
event followed by the single `Any` event. -/
theorem translate_flags_imprecise (pid : Nat) (flags : StreamFlags)
    (h : flags.contains StreamFlags.HISTORY_DONE = false) :
    translate_flags pid flags false =
      (if flags.contains StreamFlags.MUST_SCAN_SUBDIRS then [rescan_event flags]
       else []) ++ [Event.new EventKind.Any] := by
  simp [translate_flags, h]

/-- Without `HISTORY_DONE`, the precise result is the conditional rescan event
followed by the precise tail, all stamped when `OWN_EVENT` is set. -/
theorem translate_flags_precise (pid : Nat) (flags : StreamFlags)
    (h : flags.contains StreamFlags.HISTORY_DONE = false) :
    translate_flags pid flags true =
      (if flags.contains StreamFlags.OWN_EVENT then
        (((if flags.contains StreamFlags.MUST_SCAN_SUBDIRS then
            [rescan_event flags]
          else []) ++ precise_tail flags).map
            (fun ev => ev.set_process_id pid))
      else
        ((if flags.contains StreamFlags.MUST_SCAN_SUBDIRS then
            [rescan_event flags]
          else []) ++ precise_tail flags)) := by
  simp [translate_flags, h]

/-- The rescan event never has a `Create` kind. -/
theorem rescan_event_not_create (flags : StreamFlags) :
    (rescan_event flags).kind.isCreate = false := by
  rw [rescan_event_kind]
  rfl

/-! ## Claim C5 -/

/-- C5: for every flag set containing `HISTORY_DONE` and for both values of
`precise`, the translator returns the empty list regardless of the other
bits. -/
theorem translate_history_done_empty (pid : Nat) (flags : StreamFlags)
    (precise : Bool)
    (h : flags.contains StreamFlags.HISTORY_DONE = true) :
    translate_flags pid flags precise = [] := by
  simp [translate_flags, h]

/-- Witness for C5: the history-done sentinel combined with item-created and
is-file bits translates to no events. -/
theorem translate_history_done_empty_witness :
    translate_flags 0 (StreamFlags.mk (kHistoryDone ||| kItemCreated ||| kItemIsFile))
      true = [] :=
  translate_history_done_empty 0
    (StreamFlags.mk (kHistoryDone ||| kItemCreated ||| kItemIsFile)) true
    (by decide)

/-! ## Claim C4 -/

/-- C4: for every flag set without `HISTORY_DONE`, the imprecise translation
ends in an `Any` event; when `MUST_SCAN_SUBDIRS` is set the `Any` event is
preceded by exactly one `Rescan`-flagged event of kind `Other`, and otherwise
the `Any` event is the only element, so the length is 2 exactly when
`MUST_SCAN_SUBDIRS` is set and 1 otherwise. -/
theorem translate_imprecise_shape (pid : Nat) (flags : StreamFlags)
    (hhd : flags.contains StreamFlags.HISTORY_DONE = false) :
    (translate_flags pid flags false).getLast? =
      some (Event.new EventKind.Any) ∧
    (flags.contains StreamFlags.MUST_SCAN_SUBDIRS = true →
      ∃ e, translate_flags pid flags false = [e, Event.new EventKind.Any] ∧
        e.kind = EventKind.Other ∧ e.attrs.flag = some Flag.Rescan) ∧
    (flags.contains StreamFlags.MUST_SCAN_SUBDIRS = false →
      translate_flags pid flags false = [Event.new EventKind.Any]) ∧
    (translate_flags pid flags false).length =
      (if flags.contains StreamFlags.MUST_SCAN_SUBDIRS then 2 else 1) := by
  rw [translate_flags_imprecise pid flags hhd]
  by_cases hm : flags.contains StreamFlags.MUST_SCAN_SUBDIRS = true
  · rw [if_pos hm, if_pos hm]
    exact ⟨rfl,
      fun _ => ⟨rescan_event flags, rfl, rescan_event_kind flags,
        rescan_event_flag flags⟩,
      fun hc => absurd hm (by simp [hc]),
      rfl⟩
  · rw [if_neg hm, if_neg hm]
    refine ⟨rfl, fun hc => absurd hc hm, fun _ => rfl, rfl⟩

/-- Witness for C4: with only `MUST_SCAN_SUBDIRS` set, the imprecise result is
the rescan event followed by the `Any` event. -/
theorem translate_imprecise_shape_witness :
    (translate_flags 3 (StreamFlags.mk kMustScanSubDirs) false).getLast? =
      some (Event.new EventKind.Any) ∧
    ((StreamFlags.mk kMustScanSubDirs).contains StreamFlags.MUST_SCAN_SUBDIRS =
        true →
      ∃ e, translate_flags 3 (StreamFlags.mk kMustScanSubDirs) false =
          [e, Event.new EventKind.Any] ∧
        e.kind = EventKind.Other ∧ e.attrs.flag = some Flag.Rescan) ∧
    ((StreamFlags.mk kMustScanSubDirs).contains StreamFlags.MUST_SCAN_SUBDIRS =
        false →
      translate_flags 3 (StreamFlags.mk kMustScanSubDirs) false =
        [Event.new EventKind.Any]) ∧
    (translate_flags 3 (StreamFlags.mk kMustScanSubDirs) false).length =
      (if (StreamFlags.mk kMustScanSubDirs).contains
          StreamFlags.MUST_SCAN_SUBDIRS then 2 else 1) :=
  translate_imprecise_shape 3 (StreamFlags.mk kMustScanSubDirs) (by decide)

/-! ## Claim C3 -/

/-- C3 counterexample: with `MUST_SCAN_SUBDIRS | OWN_EVENT` and precise mode,
the single emitted event is the rule-2 `Rescan` event and it DOES carry the
process id — the claim states the rescan event carries no `process_id`. -/
theorem own_event_stamps_rescan_cex :
    translate_flags 4242 (StreamFlags.mk (kMustScanSubDirs ||| kOwnEvent))
      true =
      [{ kind := EventKind.Other,
         attrs := { flag := some Flag.Rescan, process_id := some 4242 } }] := by
  decide

/-- C3 (amended): with `OWN_EVENT` set (and no `HISTORY_DONE`), in precise
mode EVERY event of the call — the rule-2 rescan event included — carries
`process_id` equal to the current process id. -/
theorem own_event_stamps_all_events (pid : Nat) (flags : StreamFlags)
    (how : flags.contains StreamFlags.OWN_EVENT = true)
    (hhd : flags.contains StreamFlags.HISTORY_DONE = false) :
    ∀ e ∈ translate_flags pid flags true, e.attrs.process_id = some pid := by
  intro e he
  rw [translate_flags_precise pid flags hhd, if_pos how] at he
  simp only [List.mem_map] at he
  obtain ⟨x, _, rfl⟩ := he
  rfl

/-- Witness for the amended C3 at a concrete flag set, instantiated at the
rescan event of the translated list (which the stamping did reach). -/
theorem own_event_stamps_all_events_witness :
    (Event.mk EventKind.Other []
      { flag := some Flag.Rescan, info := none,
        process_id := some 4242 }).attrs.process_id = some 4242 :=
  own_event_stamps_all_events 4242
    (StreamFlags.mk (kOwnEvent ||| kMustScanSubDirs ||| kItemModified))
    (by decide) (by decide)
    (Event.mk EventKind.Other []
      { flag := some Flag.Rescan, info := none, process_id := some 4242 })
    (by decide)

/-! ## Claim C6 -/

/-- C6 counterexample: with `ITEM_CREATED | MOUNT` (precise, no history bit)
the result contains TWO events of `Create` kind — the mount event and the
item-created event — while the claim asserts exactly one create event. -/
theorem created_mount_two_creates_cex :
    ((translate_flags 0 (StreamFlags.mk (kItemCreated ||| kMount)) true).filter
      (fun e => e.kind.isCreate)).length = 2 := by
  decide

/-- C6 (amended): with `ITEM_CREATED` (no `HISTORY_DONE`, precise), the
`Create`-kind events of the result are the mount rule's `Create(Other)` event
with info `"mount"` (present exactly when `MOUNT` is set) followed by exactly
one item-created event; that event is chosen as `Create(Folder)` if `IS_DIR`,
else `Create(File)` if `IS_FILE`, else `Create(Other)` with info
`"is: symlink"` / `"is: hardlink"` / `"is: clone"` by the first matching of
`IS_SYMLINK` / `IS_HARDLINK` / `ITEM_CLONED`, else `Create(Any)` with no
info.  When `OWN_EVENT` is set, the events additionally carry the process
id. -/
theorem translate_created_event_shape (pid : Nat) (flags : StreamFlags)
    (hic : flags.contains StreamFlags.ITEM_CREATED = true)
    (hhd : flags.contains StreamFlags.HISTORY_DONE = false) :
    (translate_flags pid flags true).filter (fun e => e.kind.isCreate) =
      (if flags.contains StreamFlags.OWN_EVENT then
        (((if flags.contains StreamFlags.MOUNT then
            [(Event.new (EventKind.Create CreateKind.Other)).set_info "mount"]
          else []) ++ [created_event flags]).map
            (fun e => e.set_process_id pid))
      else
        ((if flags.contains StreamFlags.MOUNT then
            [(Event.new (EventKind.Create CreateKind.Other)).set_info "mount"]
          else []) ++ [created_event flags])) ∧
    created_event flags =
      (if flags.contains StreamFlags.IS_DIR then
        Event.new (EventKind.Create CreateKind.Folder)
      else if flags.contains StreamFlags.IS_FILE then
        Event.new (EventKind.Create CreateKind.File)
      else if flags.contains StreamFlags.IS_SYMLINK then
        (Event.new (EventKind.Create CreateKind.Other)).set_info "is: symlink"
      else if flags.contains StreamFlags.IS_HARDLINK then
        (Event.new (EventKind.Create CreateKind.Other)).set_info "is: hardlink"
      else if flags.contains StreamFlags.ITEM_CLONED then
        (Event.new (EventKind.Create CreateKind.Other)).set_info "is: clone"
      else Event.new (EventKind.Create CreateKind.Any)) := by
  have hrs : List.filter (fun e => e.kind.isCreate)
      (if flags.contains StreamFlags.MUST_SCAN_SUBDIRS then [rescan_event flags]
       else []) = [] := by
    rw [filter_ite_singleton]
    have h := rescan_event_not_create flags
    split <;> simp [List.filter, h]
  have key : ((if flags.contains StreamFlags.MUST_SCAN_SUBDIRS then
        [rescan_event flags]
      else []) ++ precise_tail flags).filter (fun e => e.kind.isCreate) =
      (if flags.contains StreamFlags.MOUNT then
        [(Event.new (EventKind.Create CreateKind.Other)).set_info "mount"]
       else []) ++ [created_event flags] := by
    rw [List.filter_append, hrs, precise_tail_filter_create flags, if_pos hic,
      List.nil_append]
  constructor
  · rw [translate_flags_precise pid flags hhd]
    by_cases how : flags.contains StreamFlags.OWN_EVENT = true
    · rw [if_pos how, if_pos how,
        filter_kind_map_set_process_id EventKind.isCreate, key]
    · rw [if_neg how, if_neg how, key]
  · rfl

/-- Witness for the amended C6: a created clone yields exactly the single
`Create(Other)` event with info `"is: clone"`. -/
theorem translate_created_event_shape_witness :
    (translate_flags 0 (StreamFlags.mk (kItemCreated ||| kItemCloned))
        true).filter (fun e => e.kind.isCreate) =
      [(Event.new (EventKind.Create CreateKind.Other)).set_info "is: clone"] ∧
    created_event (StreamFlags.mk (kItemCreated ||| kItemCloned)) =
      (Event.new (EventKind.Create CreateKind.Other)).set_info "is: clone" := by
  have h := translate_created_event_shape 0
    (StreamFlags.mk (kItemCreated ||| kItemCloned)) (by decide) (by decide)
  exact ⟨h.1.trans (by decide), h.2.trans (by decide)⟩

/-! ## Claim C7 -/

/-- C7: with `MUST_SCAN_SUBDIRS` set (and no `HISTORY_DONE`), for either value
of `precise` the result contains exactly one event of kind `Other`; it carries
the `Rescan` flag and its info is `"rescan: user dropped"` when `USER_DROPPED`
is set, else `"rescan: kernel dropped"` when `KERNEL_DROPPED` is set, else
absent. -/
theorem translate_rescan_event_shape (pid : Nat) (flags : StreamFlags)
    (precise : Bool)
    (hms : flags.contains StreamFlags.MUST_SCAN_SUBDIRS = true)
    (hhd : flags.contains StreamFlags.HISTORY_DONE = false) :
    ∃ e, (translate_flags pid flags precise).filter
        (fun ev => ev.kind.isOtherKind) = [e] ∧
      e.kind = EventKind.Other ∧
      e.attrs.flag = some Flag.Rescan ∧
      e.attrs.info =
        (if flags.contains StreamFlags.USER_DROPPED then
          some "rescan: user dropped"
        else if flags.contains StreamFlags.KERNEL_DROPPED then
          some "rescan: kernel dropped"
        else none) := by
  have hko := rescan_event_kind flags
  cases precise with
  | false =>
    rw [translate_flags_imprecise pid flags hhd, if_pos hms]
    refine ⟨rescan_event flags, ?_, hko, rescan_event_flag flags,
      rescan_event_info flags⟩
    simp [List.filter, hko, EventKind.isOtherKind]
  | true =>
    rw [translate_flags_precise pid flags hhd, if_pos hms]
    by_cases how : flags.contains StreamFlags.OWN_EVENT = true
    · rw [if_pos how, filter_kind_map_set_process_id EventKind.isOtherKind,
        List.filter_append, precise_tail_filter_other, List.append_nil]
      refine ⟨(rescan_event flags).set_process_id pid, ?_, ?_, ?_, ?_⟩
      · simp [List.filter, hko, EventKind.isOtherKind]
      · simp [hko]
      · simp [rescan_event_flag]
      · simp [rescan_event_info]
    · rw [if_neg how, List.filter_append, precise_tail_filter_other,
        List.append_nil]
      refine ⟨rescan_event flags, ?_, hko, rescan_event_flag flags,
        rescan_event_info flags⟩
      simp [List.filter, hko, EventKind.isOtherKind]

/-- Witness for C7: a user-dropped rescan notification yields exactly one
`Other`-kind event, flagged `Rescan`, with info `"rescan: user dropped"`. -/
theorem translate_rescan_event_shape_witness :
    ∃ e, (translate_flags 0 (StreamFlags.mk (kMustScanSubDirs ||| kUserDropped))
        true).filter (fun ev => ev.kind.isOtherKind) = [e] ∧
      e.kind = EventKind.Other ∧
      e.attrs.flag = some Flag.Rescan ∧
      e.attrs.info =
        (if (StreamFlags.mk (kMustScanSubDirs ||| kUserDropped)).contains
            StreamFlags.USER_DROPPED then
          some "rescan: user dropped"
        else if (StreamFlags.mk (kMustScanSubDirs ||| kUserDropped)).contains
            StreamFlags.KERNEL_DROPPED then
          some "rescan: kernel dropped"
        else none) :=
  translate_rescan_event_shape 0
    (StreamFlags.mk (kMustScanSubDirs ||| kUserDropped)) true
    (by decide) (by decide)

/-! ## Claim C1 -/

/-- C1: contrary to the claim, a `watch` call on an existing path never
returns `Ok`.  `append_path` succeeds, so the path array is non-empty and
`run` enters `CFRunLoopRun()` on the CALLING thread (no background thread is
spawned; `self.runloop` is never assigned): the call diverges if the run loop
never returns, and hits `run`'s unconditional panic if it does. -/
theorem watch_inner_existing_path_never_returns_ok (env : OsEnv)
    (st : FsEventWatcher) (path : String) (mode : RecursiveMode)
    (hex : env.path_exists path = true) (hcf : env.cfstring_ok path = true) :
    st.watch_inner env path mode =
      (if env.runloop_returns then WatchOutcome.panics "no"
       else WatchOutcome.diverges) := by
  unfold FsEventWatcher.watch_inner FsEventWatcher.append_path
    FsEventWatcher.run
  simp only [hex, hcf, Bool.not_true, Bool.false_eq_true, if_false]
  simp only [List.length_append, List.length_cons, List.length_nil]
  cases hr : env.runloop_returns <;> simp [hr]

/-- Witness for C1's violation theorem: a fresh watcher, an existing path and
a run loop that eventually returns make `watch` end in the `"no"` panic. -/
theorem watch_inner_existing_path_never_returns_ok_witness :
    FsEventWatcher.watch_inner FsEventWatcher.from_event_handler
      { path_exists := fun _ => true
        cfstring_ok := fun _ => true
        canonicalize := fun s => s
        runloop_returns := true }
      "/tmp" RecursiveMode.Recursive = WatchOutcome.panics "no" :=
  watch_inner_existing_path_never_returns_ok
    { path_exists := fun _ => true
      cfstring_ok := fun _ => true
      canonicalize := fun s => s
      runloop_returns := true }
    FsEventWatcher.from_event_handler "/tmp" RecursiveMode.Recursive rfl rfl

/-! ## Callback helper lemma -/

/-- Processing a concatenation: if the first block completes without panic,
processing resumes on the second block with the accumulated printed events. -/
theorem callback_go_append_ok (pre rest : List CallbackEntry)
    (acc out : List (String × StreamFlags))
    (h : callback_go pre acc = CallbackOutcome.ok out) :
    callback_go (pre ++ rest) acc = callback_go rest out := by
  induction pre generalizing acc with
  | nil =>
    simp only [callback_go] at h
    cases h
    simp [callback_go]
  | cons a pre ih =>
    obtain ⟨pa, fa⟩ := a
    cases pa with
    | none => simp [callback_go] at h
    | some p =>
      simp only [callback_go, List.cons_append] at h ⊢
      by_cases hg : str_contains p ".hg" = true
      · rw [if_pos hg] at h ⊢
        exact ih _ h
      · rw [if_neg hg] at h ⊢
        cases hf : StreamFlags.from_bits fa with
        | none => simp [hf] at h
        | some fl =>
          simp only [hf] at h ⊢
          exact ih _ h

/-! ## Claim C2 -/

/-- C2 counterexample: a first entry whose path bytes are not valid UTF-8 is
NOT silently dropped — the callback panics via `expect` before reaching the
second, well-formed entry, so no further index is processed.  The claim
predicts the second equality (dropping index 0 and continuing). -/
theorem callback_invalid_utf8_cex :
    callback_impl [⟨none, kItemCreated⟩, ⟨some "/ok", kItemCreated⟩] =
      CallbackOutcome.panics [] "Invalid UTF8 string." ∧
    callback_impl [⟨none, kItemCreated⟩, ⟨some "/ok", kItemCreated⟩] ≠
      CallbackOutcome.ok [("/ok", StreamFlags.mk kItemCreated)] := by
  decide

/-- C2 (amended): a notification whose path bytes are not valid UTF-8 makes
the callback invocation panic with `"Invalid UTF8 string."` at that index:
the indices before it are processed normally and no event is produced for it
or for any later index. -/
theorem callback_invalid_utf8_panics (pre : List CallbackEntry)
    (out : List (String × StreamFlags)) (e : CallbackEntry)
    (post : List CallbackEntry)
    (hpre : callback_impl pre = CallbackOutcome.ok out)
    (hp : e.path = none) :
    callback_impl (pre ++ e :: post) =
      CallbackOutcome.panics out "Invalid UTF8 string." := by
  obtain ⟨pa, fa⟩ := e
  cases pa with
  | some q => simp at hp
  | none =>
    unfold callback_impl at hpre ⊢
    rw [callback_go_append_ok pre
      ({ path := none, flags := fa } :: post) [] out hpre]
    simp [callback_go]

/-- Witness for the amended C2: one good entry, then an invalid-UTF-8 entry,
then another good entry. -/
theorem callback_invalid_utf8_panics_witness :
    callback_impl
        [⟨some "/a", kMount⟩, ⟨none, kItemCreated⟩, ⟨some "/b", kMount⟩] =
      CallbackOutcome.panics [("/a", StreamFlags.mk kMount)]
        "Invalid UTF8 string." :=
  callback_invalid_utf8_panics [⟨some "/a", kMount⟩]
    [("/a", StreamFlags.mk kMount)] ⟨none, kItemCreated⟩
    [⟨some "/b", kMount⟩] (by decide) rfl

/-! ## Claim C10 -/

/-- C10: an entry whose decoded path contains the substring `".hg"` is dropped
entirely — the invocation behaves exactly as if the entry were absent, its
flag word is never decoded (it may even be undecodable), and processing
continues with the remaining entries. -/
theorem callback_skips_hg_paths (pre : List CallbackEntry)
    (out : List (String × StreamFlags)) (e : CallbackEntry)
    (post : List CallbackEntry) (p : String)
    (hpre : callback_impl pre = CallbackOutcome.ok out)
    (hp : e.path = some p) (hg : str_contains p ".hg" = true) :
    callback_impl (pre ++ e :: post) = callback_impl (pre ++ post) := by
  obtain ⟨pa, fa⟩ := e
  cases pa with
  | none => simp at hp
  | some q =>
    have hq : q = p := by simpa using hp
    subst hq
    unfold callback_impl
    rw [callback_go_append_ok pre
        ({ path := some q, flags := fa } :: post) [] out hpre,
      callback_go_append_ok pre post [] out hpre]
    simp [callback_go, hg]

/-- Witness for C10: a `.hg` path with an UNDECODABLE flag word is skipped
without aborting, and the surrounding entries are processed as if it were
absent. -/
theorem callback_skips_hg_paths_witness :
    callback_impl
        [⟨some "/a", kMount⟩, ⟨some "/r/.hg/x", 0xFFFFFFFF⟩,
         ⟨some "/b", kItemCreated⟩] =
      callback_impl [⟨some "/a", kMount⟩, ⟨some "/b", kItemCreated⟩] :=
  callback_skips_hg_paths [⟨some "/a", kMount⟩]
    [("/a", StreamFlags.mk kMount)] ⟨some "/r/.hg/x", 0xFFFFFFFF⟩
    [⟨some "/b", kItemCreated⟩] "/r/.hg/x" (by decide) rfl (by decide)

/-! ## Claim C8 -/

/-- C8 counterexample: the number of single-bit words that `from_bits`
decodes is 23, not 25 as the claim counts; in particular bit 23 — which a
25-position set reaching beyond the 23 defined bits would have to include —
is rejected. -/
theorem defined_flag_positions_cex :
    ((List.range 32).filter
      (fun i => (StreamFlags.from_bits (2 ^ i)).isSome)).length = 23 ∧
    (StreamFlags.from_bits (2 ^ 23)).isSome = false ∧
    (StreamFlags.from_bits (2 ^ 24)).isSome = false := by
  decide

/-- C8 (amended): `from_bits(bits)` succeeds iff no bit outside the 23
defined flag positions (bits 0 to 22) is set; and in the callback an
undecodable flag word is fatal for that invocation — the callback panics
after processing the earlier indices, emitting nothing for the offending or
any later index. -/
theorem from_bits_iff_and_callback_panic :
    (∀ bits : Nat, bits < 2 ^ 32 →
      ((StreamFlags.from_bits bits).isSome = true ↔
        ∀ i, bits.testBit i = true → i < 23)) ∧
    (∀ (pre : List CallbackEntry) (out : List (String × StreamFlags))
        (e : CallbackEntry) (post : List CallbackEntry) (p : String),
      callback_impl pre = CallbackOutcome.ok out →
      e.path = some p →
      str_contains p ".hg" = false →
      StreamFlags.from_bits e.flags = none →
      callback_impl (pre ++ e :: post) =
        CallbackOutcome.panics out
          ("Unable to decode StreamFlags: " ++ toString e.flags)) := by
  constructor
  · intro bits hlt
    have hmask : (0xFFFFFFFF ^^^ StreamFlags.all.bits : Nat) = 0x1FF <<< 23 := by
      decide
    rw [StreamFlags.from_bits, hmask]
    by_cases hz : bits &&& (0x1FF <<< 23) = 0
    · simp only [hz, if_true, Option.isSome_some, true_iff]
      intro i hbit
      by_contra hge
      have h23 : 23 ≤ i := by omega
      rcases lt_or_ge i 32 with hi32 | hi32
      · have hM : (0x1FF <<< 23 : Nat).testBit i = true := by
          rw [Nat.testBit_shiftLeft]
          have h9 : (0x1FF : Nat) = 2 ^ 9 - 1 := by norm_num
          rw [h9, Nat.testBit_two_pow_sub_one]
          simp only [ge_iff_le, h23, decide_True, Bool.true_and,
            decide_eq_true_eq]
          omega
        have hand : (bits &&& (0x1FF <<< 23)).testBit i = false := by
          rw [hz]
          exact Nat.zero_testBit i
        rw [Nat.testBit_and, hbit, hM] at hand
        exact absurd hand (by decide)
      · have hbits : bits.testBit i = false :=
          Nat.testBit_lt_two_pow
            (lt_of_lt_of_le hlt (Nat.pow_le_pow_right (by norm_num) hi32))
        rw [hbit] at hbits
        exact absurd hbits (by simp)
    · simp only [hz, if_false, Option.isSome_none]
      refine iff_of_false (by simp) ?_
      intro hall
      apply hz
      apply Nat.eq_of_testBit_eq
      intro i
      rw [Nat.testBit_and, Nat.zero_testBit]
      cases hbi : bits.testBit i with
      | false => rfl
      | true =>
        have hi := hall i hbi
        have hM : (0x1FF <<< 23 : Nat).testBit i = false := by
          rw [Nat.testBit_shiftLeft]
          simp only [ge_iff_le, Bool.and_eq_false_iff, decide_eq_false_iff_not,
            not_le]
          left
          omega
        rw [hM]
        rfl
  · intro pre out e post p hpre hp hg hf
    obtain ⟨pa, fa⟩ := e
    cases pa with
    | none => simp at hp
    | some q =>
      have hq : q = p := by simpa using hp
      subst hq
      unfold callback_impl at hpre ⊢
      rw [callback_go_append_ok pre
        ({ path := some q, flags := fa } :: post) [] out hpre]
      simp [callback_go, hg, hf]

/-- Witness for the amended C8: bit 23 alone fails the decode criterion, and
a concrete callback invocation with an undecodable flag word panics after the
entry before it. -/
theorem from_bits_iff_and_callback_panic_witness :
    ((StreamFlags.from_bits (2 ^ 23)).isSome = true ↔
      ∀ i, (2 ^ 23 : Nat).testBit i = true → i < 23) ∧
    callback_impl [⟨some "/a", kMount⟩, ⟨some "/b", 0x800000⟩] =
      CallbackOutcome.panics [("/a", StreamFlags.mk kMount)]
        "Unable to decode StreamFlags: 8388608" :=
  ⟨from_bits_iff_and_callback_panic.1 (2 ^ 23) (by norm_num),
   from_bits_iff_and_callback_panic.2 [⟨some "/a", kMount⟩]
     [("/a", StreamFlags.mk kMount)] ⟨some "/b", 0x800000⟩ [] "/b"
     (by decide) rfl (by decide) (by decide)⟩

/-! ## Claim C9 -/

/-- C9 counterexample: `configure` with a recognized-per-spec option
(`precise_events`) returns `Ok(false)`, never `Ok(true)` — the claim requires
some such config to yield `Ok(true)`. -/
theorem configure_unrecognized_cex :
    configure (Config.precise_events true) = Except.ok false ∧
    configure (Config.precise_events true) ≠ Except.ok true :=
  ⟨rfl, fun h => by simp [configure, configure_raw_mode] at h⟩

/-- C9 (amended): `configure(config)` returns `Ok(false)` for every config:
the raw-mode configuration stub unconditionally reports the option as
unrecognized. -/
theorem configure_always_ok_false (config : Config) :
    configure config = Except.ok false :=
  rfl

end FseventDump
